import Mathlib

/-!
Formal model of the benchmark orchestration script
(src/scripts/performance_benchmark.py) of the ai_lottory repository.

Durations are modelled as rationals (milliseconds), matching the exact
arithmetic the Python code performs on its float samples at the level of
the formulas.  Code that can raise an exception is modelled with Option:
a result of none marks the spot where the Python code raises.  Dictionaries
are modelled as association lists; dict.get with default 0 becomes getD.
-/

namespace PerfBench

/-- Python statistics.mean on a non-empty list (callers guard emptiness). -/
def mean (l : List ℚ) : ℚ := l.sum / l.length

/-- Python min over a non-empty list (callers guard emptiness). -/
def listMin : List ℚ → ℚ
  | [] => 0
  | x :: xs => xs.foldl min x

/-- Python max over a non-empty list (callers guard emptiness). -/
def listMax : List ℚ → ℚ
  | [] => 0
  | x :: xs => xs.foldl max x

/-- Python statistics.median: sort, take the middle element for odd length,
the average of the two middle elements for even length. -/
def pyMedian (l : List ℚ) : ℚ :=
  let s := List.insertionSort (fun a b => a ≤ b) l
  if s.length % 2 = 1 then s.getD (s.length / 2) 0
  else (s.getD (s.length / 2 - 1) 0 + s.getD (s.length / 2) 0) / 2

/-- Sample variance with the n-1 denominator, the square of what Python
statistics.stdev returns (callers guard length at least 2). -/
def sampleVar (l : List ℚ) : ℚ :=
  (l.map fun x => (x - mean l) ^ 2).sum / ((l.length : ℚ) - 1)

/-!
Regression comparator: compare_with_baseline, lines 504-557 of the source.
The two summaries are dictionaries read with .get(metric, 0).
-/

/-- Model of dict.get(key, 0) on an association list. -/
def getD (m : List (String × ℚ)) (k : String) : ℚ :=
  match m.find? (fun p => p.1 == k) with
  | some p => p.2
  | none => 0

/-- The metrics_to_compare list of the source, line 522. -/
def metrics_to_compare : List String :=
  ["average_response_time_ms", "success_rate", "average_cpu_percent", "average_memory_percent"]

/-- The higher-is-worse metric list used by the regression branch, line 538. -/
def hiwMetrics : List String :=
  ["average_response_time_ms", "average_cpu_percent", "average_memory_percent"]

/-- One entry of the performance_changes dictionary. -/
structure MetricChange where
  baseline : ℚ
  current : ℚ
  change_percent : ℚ
deriving DecidableEq

/-- One entry of regressions_detected. -/
structure RegressionFlag where
  metric : String
  severity : String
  change_percent : ℚ
deriving DecidableEq

/-- One entry of improvements_detected. -/
structure ImprovementFlag where
  metric : String
  improvement_percent : ℚ
deriving DecidableEq

/-- The comparison value built by compare_with_baseline (timestamps omitted). -/
structure ComparisonResult where
  performance_changes : List (String × MetricChange)
  regressions_detected : List RegressionFlag
  improvements_detected : List ImprovementFlag
deriving DecidableEq

/-- The body of the for-metric loop of compare_with_baseline, lines 524-551,
acting on the accumulated comparison value. -/
def compareStep (cur bas : List (String × ℚ)) (comp : ComparisonResult) (metric : String) :
    ComparisonResult :=
  let current_value := getD cur metric
  let baseline_value := getD bas metric
  if baseline_value > 0 then
    let change_percent := (current_value - baseline_value) / baseline_value * 100
    let c1 : ComparisonResult :=
      { comp with performance_changes :=
          comp.performance_changes ++
            [(metric, ⟨baseline_value, current_value, change_percent⟩)] }
    let c2 : ComparisonResult :=
      if change_percent > 10 then
        if metric ∈ hiwMetrics then
          { c1 with regressions_detected :=
              c1.regressions_detected ++
                [⟨metric, if change_percent > 50 then "high" else "medium", change_percent⟩] }
        else c1
      else c1
    if change_percent < -10 then
      if metric ∈ ["average_response_time_ms"] ∨
          (metric = "success_rate" ∧ change_percent < -10) then
        { c2 with improvements_detected :=
            c2.improvements_detected ++ [⟨metric, |change_percent|⟩] }
      else c2
    else c2
  else comp

/-- compare_with_baseline restricted to its comparison logic: the loop over
metrics_to_compare starting from the empty comparison value. -/
def compare_with_baseline (cur bas : List (String × ℚ)) : ComparisonResult :=
  metrics_to_compare.foldl (compareStep cur bas) ⟨[], [], []⟩

/-- The performance_changes entry one metric contributes, if any. -/
def changeEntry (cur bas : List (String × ℚ)) (m : String) : Option (String × MetricChange) :=
  if getD bas m > 0 then
    some (m, ⟨getD bas m, getD cur m, (getD cur m - getD bas m) / getD bas m * 100⟩)
  else none

/-- The regressions_detected entry one metric contributes, if any. -/
def regEntry (cur bas : List (String × ℚ)) (m : String) : Option RegressionFlag :=
  if getD bas m > 0 ∧ (getD cur m - getD bas m) / getD bas m * 100 > 10 ∧ m ∈ hiwMetrics then
    some ⟨m,
      if (getD cur m - getD bas m) / getD bas m * 100 > 50 then "high" else "medium",
      (getD cur m - getD bas m) / getD bas m * 100⟩
  else none

/-- The improvements_detected entry one metric contributes, if any. -/
def impEntry (cur bas : List (String × ℚ)) (m : String) : Option ImprovementFlag :=
  if getD bas m > 0 ∧ (getD cur m - getD bas m) / getD bas m * 100 < -10 ∧
      (m ∈ ["average_response_time_ms"] ∨
        (m = "success_rate" ∧ (getD cur m - getD bas m) / getD bas m * 100 < -10)) then
    some ⟨m, |(getD cur m - getD bas m) / getD bas m * 100|⟩
  else none

theorem compareStep_eq (cur bas : List (String × ℚ)) (comp : ComparisonResult) (m : String) :
    compareStep cur bas comp m =
      { performance_changes := comp.performance_changes ++ (changeEntry cur bas m).toList
        regressions_detected := comp.regressions_detected ++ (regEntry cur bas m).toList
        improvements_detected := comp.improvements_detected ++ (impEntry cur bas m).toList } := by
  simp only [compareStep, changeEntry, regEntry, impEntry]
  split_ifs <;> simp_all [Option.toList]

theorem foldl_compareStep (cur bas : List (String × ℚ)) (ms : List String)
    (comp : ComparisonResult) :
    ms.foldl (compareStep cur bas) comp =
      { performance_changes := comp.performance_changes ++ ms.filterMap (changeEntry cur bas)
        regressions_detected := comp.regressions_detected ++ ms.filterMap (regEntry cur bas)
        improvements_detected := comp.improvements_detected ++ ms.filterMap (impEntry cur bas) } := by
  induction ms generalizing comp with
  | nil => simp
  | cons m t ih =>
    simp only [List.foldl_cons, List.filterMap_cons]
    rw [compareStep_eq, ih]
    cases h1 : changeEntry cur bas m <;> cases h2 : regEntry cur bas m <;>
      cases h3 : impEntry cur bas m <;> simp [Option.toList]

theorem compare_with_baseline_eq (cur bas : List (String × ℚ)) :
    compare_with_baseline cur bas =
      { performance_changes := metrics_to_compare.filterMap (changeEntry cur bas)
        regressions_detected := metrics_to_compare.filterMap (regEntry cur bas)
        improvements_detected := metrics_to_compare.filterMap (impEntry cur bas) } := by
  unfold compare_with_baseline
  rw [foldl_compareStep]
  rfl

theorem changeEntry_some (cur bas : List (String × ℚ)) (m : String) (e : String × MetricChange)
    (h : changeEntry cur bas m = some e) : e.1 = m ∧ 0 < getD bas m := by
  unfold changeEntry at h
  split at h
  · cases h; exact ⟨rfl, by assumption⟩
  · cases h

theorem regEntry_some (cur bas : List (String × ℚ)) (m : String) (r : RegressionFlag)
    (h : regEntry cur bas m = some r) :
    r.metric = m ∧ 0 < getD bas m ∧ (getD cur m - getD bas m) / getD bas m * 100 > 10 := by
  unfold regEntry at h
  split at h
  · cases h
    rename_i hc
    exact ⟨rfl, hc.1, hc.2.1⟩
  · cases h

theorem impEntry_some (cur bas : List (String × ℚ)) (m : String) (i : ImprovementFlag)
    (h : impEntry cur bas m = some i) : i.metric = m ∧ 0 < getD bas m := by
  unfold impEntry at h
  split at h
  · cases h
    rename_i hc
    exact ⟨rfl, hc.1⟩
  · cases h

/-- C6: a requested metric whose baseline value is 0 is omitted from
performance_changes entirely, can never appear in the regression or
improvement lists, and the comparison is a total function on rational
summaries (no division by zero is performed for that metric, so no
exception, Infinity or NaN can arise from it). -/
theorem compare_zero_baseline_omitted (cur bas : List (String × ℚ)) (m : String)
    (h : getD bas m = 0) :
    (∀ e ∈ (compare_with_baseline cur bas).performance_changes, e.1 ≠ m) ∧
    (∀ r ∈ (compare_with_baseline cur bas).regressions_detected, r.metric ≠ m) ∧
    (∀ i ∈ (compare_with_baseline cur bas).improvements_detected, i.metric ≠ m) := by
  rw [compare_with_baseline_eq]
  refine ⟨?_, ?_, ?_⟩
  · intro e he heq
    obtain ⟨m2, _, hsome⟩ := List.mem_filterMap.mp he
    obtain ⟨hfst, hpos⟩ := changeEntry_some cur bas m2 e hsome
    rw [hfst.symm.trans heq, h] at hpos
    exact lt_irrefl 0 hpos
  · intro r hr heq
    obtain ⟨m2, _, hsome⟩ := List.mem_filterMap.mp hr
    obtain ⟨hfst, hpos, -⟩ := regEntry_some cur bas m2 r hsome
    rw [hfst.symm.trans heq, h] at hpos
    exact lt_irrefl 0 hpos
  · intro i hi heq
    obtain ⟨m2, _, hsome⟩ := List.mem_filterMap.mp hi
    obtain ⟨hfst, hpos⟩ := impEntry_some cur bas m2 i hsome
    rw [hfst.symm.trans heq, h] at hpos
    exact lt_irrefl 0 hpos

/-- Witness for C6 at a concrete input: the baseline summary lacks the
success_rate key, so getD yields 0 and the metric is absent from all
three outputs. -/
theorem compare_zero_baseline_omitted_witness :
    (∀ e ∈ (compare_with_baseline [("average_response_time_ms", 120)]
        [("average_response_time_ms", 100)]).performance_changes, e.1 ≠ "success_rate") ∧
    (∀ r ∈ (compare_with_baseline [("average_response_time_ms", 120)]
        [("average_response_time_ms", 100)]).regressions_detected, r.metric ≠ "success_rate") ∧
    (∀ i ∈ (compare_with_baseline [("average_response_time_ms", 120)]
        [("average_response_time_ms", 100)]).improvements_detected, i.metric ≠ "success_rate") :=
  compare_zero_baseline_omitted [("average_response_time_ms", 120)]
    [("average_response_time_ms", 100)] "success_rate" (by decide)

/-- C7: for a higher-is-worse metric with positive baseline b and current
value c, the comparator records changePercent = (c - b) / b * 100, flags a
regression exactly when that exceeds 10, and grades severity high above 50
and medium otherwise. -/
theorem compare_hiw_regression (cur bas : List (String × ℚ)) (m : String) (b c p : ℚ)
    (hm : m ∈ hiwMetrics) (hb : getD bas m = b) (hc : getD cur m = c)
    (hbpos : 0 < b) (hp : p = (c - b) / b * 100) :
    (m, (⟨b, c, p⟩ : MetricChange)) ∈ (compare_with_baseline cur bas).performance_changes ∧
    (p > 10 → (⟨m, if p > 50 then "high" else "medium", p⟩ : RegressionFlag) ∈
      (compare_with_baseline cur bas).regressions_detected) ∧
    (p ≤ 10 → ∀ r ∈ (compare_with_baseline cur bas).regressions_detected, r.metric ≠ m) := by
  subst hb hc hp
  have hmem : m ∈ metrics_to_compare := by
    fin_cases hm <;> decide
  rw [compare_with_baseline_eq]
  refine ⟨?_, ?_, ?_⟩
  · refine List.mem_filterMap.mpr ⟨m, hmem, ?_⟩
    unfold changeEntry
    rw [if_pos hbpos]
  · intro h10
    refine List.mem_filterMap.mpr ⟨m, hmem, ?_⟩
    unfold regEntry
    rw [if_pos ⟨hbpos, h10, hm⟩]
  · intro hle r hr heq
    obtain ⟨m2, _, hsome⟩ := List.mem_filterMap.mp hr
    obtain ⟨hfst, -, hgt⟩ := regEntry_some cur bas m2 r hsome
    rw [hfst.symm.trans heq] at hgt
    linarith

/-- Witness for C7 at the two concrete inputs of the claim: baseline 100
with current 160 gives change 60 and a high severity regression, current
150 gives change 50 and a medium severity regression. -/
theorem compare_hiw_regression_witness :
    (⟨"average_response_time_ms", "high", 60⟩ : RegressionFlag) ∈
      (compare_with_baseline [("average_response_time_ms", 160)]
        [("average_response_time_ms", 100)]).regressions_detected ∧
    (⟨"average_response_time_ms", "medium", 50⟩ : RegressionFlag) ∈
      (compare_with_baseline [("average_response_time_ms", 150)]
        [("average_response_time_ms", 100)]).regressions_detected := by
  constructor
  · have h := (compare_hiw_regression [("average_response_time_ms", 160)]
      [("average_response_time_ms", 100)] "average_response_time_ms" 100 160 60
      (by decide) (by decide) (by decide) (by decide) (by norm_num)).2.1 (by norm_num)
    have e : (if (60 : ℚ) > 50 then "high" else "medium") = "high" := by norm_num
    rw [e] at h
    exact h
  · have h := (compare_hiw_regression [("average_response_time_ms", 150)]
      [("average_response_time_ms", 100)] "average_response_time_ms" 100 150 50
      (by decide) (by decide) (by decide) (by decide) (by norm_num)).2.1 (by norm_num)
    have e : (if (50 : ℚ) > 50 then "high" else "medium") = "medium" := by norm_num
    rw [e] at h
    exact h

/-- C5: evaluation of the improvement branch at a success_rate drop.  The
source condition on line 547 admits success_rate whenever change_percent
is below -10, so a drop of the success rate from 1 to 1/2 (change -50,
a degradation, since for success_rate lower is worse) is flagged as an
improvement of 50 percent, and it is not flagged as a regression. -/
theorem compare_success_rate_drop_flagged_as_improvement :
    (compare_with_baseline [("success_rate", 1/2)] [("success_rate", 1)]).improvements_detected =
      [⟨"success_rate", 50⟩] ∧
    (compare_with_baseline [("success_rate", 1/2)] [("success_rate", 1)]).regressions_detected =
      [] ∧
    (compare_with_baseline [("success_rate", 1/2)] [("success_rate", 1)]).performance_changes =
      [("success_rate", ⟨1, 1/2, -50⟩)] := by
  rw [compare_with_baseline_eq]
  refine ⟨?_, ?_, ?_⟩ <;>
  · simp only [metrics_to_compare, List.filterMap_cons, List.filterMap_nil]
    simp [changeEntry, regEntry, impEntry, getD, List.find?, hiwMetrics]
    try norm_num

/-!
Load simulator: benchmark_load_performance and simulate_user_session,
lines 255-310 of the source.  A gathered session result is a float
(the session duration) or an exception; asyncio.gather with
return_exceptions=True is modelled by Except String.
-/

/-- Result of one gathered session: ok duration or an exception value. -/
def isException : Except String ℚ → Bool
  | .error _ => true
  | .ok _ => false

/-- Line 277: sessions whose gathered result is not an Exception. -/
def successfulSessionCount (rs : List (Except String ℚ)) : ℕ :=
  (rs.filter fun r => !isException r).length

/-- Line 278: the numeric (non-exception) results. -/
def sessionTimes (rs : List (Except String ℚ)) : List ℚ :=
  rs.filterMap fun r => match r with
    | .ok t => some t
    | .error _ => none

/-- The per-level result dictionary of lines 280-286. -/
structure LoadLevelResult where
  total_time_ms : ℚ
  successful_sessions : ℕ
  success_rate : ℚ
  average_session_time_ms : ℚ
  throughput_sessions_per_second : ℚ
deriving DecidableEq

/-- Construction of one level result, lines 280-286.  Python raises
ZeroDivisionError while building the dictionary when users = 0 (line 283)
or when total_time = 0 (line 285); both raises are modelled as none.
average_session_time_ms is guarded (0 on an empty list, line 284) but
the throughput division is not. -/
def mkLoadLevel (users : ℕ) (total_time : ℚ) (rs : List (Except String ℚ)) :
    Option LoadLevelResult :=
  if users = 0 then none
  else if total_time = 0 then none
  else some {
    total_time_ms := total_time
    successful_sessions := successfulSessionCount rs
    success_rate := (successfulSessionCount rs : ℚ) / users
    average_session_time_ms :=
      if sessionTimes rs = [] then 0 else mean (sessionTimes rs)
    throughput_sessions_per_second :=
      (successfulSessionCount rs : ℚ) / (total_time / 1000) }

/-- One step of the fixed session pipeline: the wall-clock duration the
action consumed and whether it succeeded (raised no exception). -/
structure ActionRun where
  duration_ms : ℚ
  ok : Bool
deriving DecidableEq

/-- The 0.1 second user think time of line 306, in milliseconds. -/
def think_time_ms : ℚ := 100

/-- simulate_user_session, lines 290-310: each action is wrapped in
try/except pass, so a failing step is swallowed and the session continues
with the next step (skipping only the think-time sleep inside the try
block); the coroutine always returns the elapsed session duration and
never raises.  Hence the gathered result is always an ok value. -/
def simulate_user_session (actions : List ActionRun) : Except String ℚ :=
  Except.ok ((actions.map fun a =>
    a.duration_ms + if a.ok then think_time_ms else 0).sum)

/-- One concurrency level of benchmark_load_performance: the measured wall
time and, for each of the `users` spawned sessions, the per-step outcomes
of that session. -/
structure LoadLevelInput where
  total_time_ms : ℚ
  sessions : List (List ActionRun)

/-- benchmark_load_performance, lines 255-288: one result per concurrency
level, keyed by the user count; range(users) spawns exactly one
simulate_user_session task per user, so the user count of a level is the
number of its sessions.  A ZeroDivisionError inside a level aborts the
whole function (none). -/
def benchmark_load_performance : List LoadLevelInput → Option (List (String × LoadLevelResult))
  | [] => some []
  | lvl :: rest =>
    match mkLoadLevel lvl.sessions.length lvl.total_time_ms
        (lvl.sessions.map simulate_user_session) with
    | none => none
    | some r =>
      match benchmark_load_performance rest with
      | none => none
      | some rs => some ((toString lvl.sessions.length ++ "_users", r) :: rs)

/-- C1 counterexample: at users = 1, totalWallTimeMs = 0 and one gathered
session, the level computation raises (none models the ZeroDivisionError
of line 285) instead of reporting a result with throughput 0. -/
theorem load_level_zero_time_counterexample :
    mkLoadLevel 1 0 [Except.ok 5] = none := rfl

/-- C1 amended: when totalWallTimeMs = 0 the level computation raises a
ZeroDivisionError (none) rather than reporting throughput 0; for a nonzero
total time it returns a result whose throughput is
successfulSessions / (totalWallTimeMs / 1000), and that division cannot
be a division by zero. -/
theorem load_level_zero_time_behavior (users : ℕ) (total_time : ℚ)
    (rs : List (Except String ℚ)) (hu : users ≠ 0) :
    (total_time = 0 → mkLoadLevel users total_time rs = none) ∧
    (total_time ≠ 0 → ∃ r, mkLoadLevel users total_time rs = some r ∧
      r.throughput_sessions_per_second =
        (successfulSessionCount rs : ℚ) / (total_time / 1000)) := by
  constructor
  · intro h0
    unfold mkLoadLevel
    rw [if_neg hu, if_pos h0]
  · intro hne
    unfold mkLoadLevel
    rw [if_neg hu, if_neg hne]
    exact ⟨_, rfl, rfl⟩

/-- Witness for the amended C1 at a concrete input. -/
theorem load_level_zero_time_behavior_witness :
    mkLoadLevel 2 0 [Except.ok 5, Except.error "boom"] = none :=
  (load_level_zero_time_behavior 2 0 [Except.ok 5, Except.error "boom"]
    (by decide)).1 rfl

/-- C2 counterexample: a level with a single session whose only step
failed still counts the session as successful (successful_sessions = 1,
success_rate = 1), because simulate_user_session swallows the step failure
and returns a duration, and line 277 only tests the gathered result for
being an Exception. -/
theorem failed_step_session_counted_successful :
    Option.map LoadLevelResult.successful_sessions
      (mkLoadLevel 1 1000 ([[ActionRun.mk 50 false]].map simulate_user_session)) =
        some 1 ∧
    Option.map LoadLevelResult.success_rate
      (mkLoadLevel 1 1000 ([[ActionRun.mk 50 false]].map simulate_user_session)) =
        some 1 := by
  constructor
  · rfl
  · show some ((1 : ℚ) / (1 : ℕ)) = some 1
    norm_num

/-- C2 amended: a session is counted successful iff its gathered result is
not an exception; since every step failure is swallowed inside
simulate_user_session, every spawned session is counted successful no
matter how many steps failed, and the success rate of every computed level
is 1. -/
theorem sessions_always_counted_successful (total_time : ℚ)
    (sessions : List (List ActionRun)) (hs : sessions ≠ []) (ht : total_time ≠ 0) :
    ∃ r, mkLoadLevel sessions.length total_time
        (sessions.map simulate_user_session) = some r ∧
      r.successful_sessions = sessions.length ∧ r.success_rate = 1 := by
  have hcount : successfulSessionCount (sessions.map simulate_user_session) =
      sessions.length := by
    unfold successfulSessionCount
    rw [List.filter_map]
    simp [Function.comp, simulate_user_session, isException]
  have hu : sessions.length ≠ 0 := fun h => hs (List.length_eq_zero.mp h)
  unfold mkLoadLevel
  rw [if_neg hu, if_neg ht]
  refine ⟨_, rfl, hcount, ?_⟩
  show (successfulSessionCount (sessions.map simulate_user_session) : ℚ) /
    (sessions.length : ℚ) = 1
  rw [hcount]
  exact div_self (Nat.cast_ne_zero.mpr hu)

/-- Witness for the amended C2 at a concrete input whose one session has a
failed step. -/
theorem sessions_always_counted_successful_witness :
    Option.map LoadLevelResult.success_rate
      (mkLoadLevel ([[ActionRun.mk 50 false]] : List (List ActionRun)).length 1000
        ([[ActionRun.mk 50 false]].map simulate_user_session)) = some 1 := by
  obtain ⟨r, hr, h1, h2⟩ :=
    sessions_always_counted_successful 1000 [[ActionRun.mk 50 false]]
      (by decide) (by norm_num)
  rw [hr]
  simp [h2]

/-!
Order statistics helper lemmas for the per-query entries.
-/

theorem foldl_min_le (xs : List ℚ) (a : ℚ) : xs.foldl min a ≤ a := by
  induction xs generalizing a with
  | nil => simp
  | cons b t ih =>
    simp only [List.foldl_cons]
    exact le_trans (ih (min a b)) (min_le_left a b)

theorem foldl_min_le_mem (xs : List ℚ) (a x : ℚ) (h : x ∈ xs) : xs.foldl min a ≤ x := by
  induction xs generalizing a with
  | nil => cases h
  | cons b t ih =>
    simp only [List.foldl_cons]
    rcases List.mem_cons.mp h with rfl | hx
    · exact le_trans (foldl_min_le t (min a x)) (min_le_right a x)
    · exact ih (min a b) hx

theorem listMin_le (l : List ℚ) (x : ℚ) (h : x ∈ l) : listMin l ≤ x := by
  cases l with
  | nil => cases h
  | cons a t =>
    rcases List.mem_cons.mp h with rfl | hx
    · exact foldl_min_le t x
    · exact foldl_min_le_mem t a x hx

theorem le_foldl_max (xs : List ℚ) (a : ℚ) : a ≤ xs.foldl max a := by
  induction xs generalizing a with
  | nil => simp
  | cons b t ih =>
    simp only [List.foldl_cons]
    exact le_trans (le_max_left a b) (ih (max a b))

theorem mem_le_foldl_max (xs : List ℚ) (a x : ℚ) (h : x ∈ xs) : x ≤ xs.foldl max a := by
  induction xs generalizing a with
  | nil => cases h
  | cons b t ih =>
    simp only [List.foldl_cons]
    rcases List.mem_cons.mp h with rfl | hx
    · exact le_trans (le_max_right a x) (le_foldl_max t (max a x))
    · exact ih (max a b) hx

theorem le_listMax (l : List ℚ) (x : ℚ) (h : x ∈ l) : x ≤ listMax l := by
  cases l with
  | nil => cases h
  | cons a t =>
    rcases List.mem_cons.mp h with rfl | hx
    · exact le_foldl_max t x
    · exact mem_le_foldl_max t a x hx

theorem sum_le_length_mul (l : List ℚ) (M : ℚ) (h : ∀ x ∈ l, x ≤ M) :
    l.sum ≤ (l.length : ℚ) * M := by
  induction l with
  | nil => simp
  | cons a t ih =>
    have h1 := ih fun x hx => h x (List.mem_cons_of_mem a hx)
    have h2 := h a (List.mem_cons_self a t)
    simp only [List.sum_cons, List.length_cons]
    have hc : ((t.length + 1 : ℕ) : ℚ) * M = (t.length : ℚ) * M + M := by
      push_cast
      ring
    rw [hc]
    linarith

theorem length_mul_le_sum (l : List ℚ) (m : ℚ) (h : ∀ x ∈ l, m ≤ x) :
    (l.length : ℚ) * m ≤ l.sum := by
  induction l with
  | nil => simp
  | cons a t ih =>
    have h1 := ih fun x hx => h x (List.mem_cons_of_mem a hx)
    have h2 := h a (List.mem_cons_self a t)
    simp only [List.sum_cons, List.length_cons]
    have hc : ((t.length + 1 : ℕ) : ℚ) * m = (t.length : ℚ) * m + m := by
      push_cast
      ring
    rw [hc]
    linarith

theorem mean_le_listMax (l : List ℚ) (h : l ≠ []) : mean l ≤ listMax l := by
  have hpos : (0 : ℚ) < l.length := by exact_mod_cast List.length_pos.mpr h
  unfold mean
  rw [div_le_iff₀ hpos, mul_comm]
  exact sum_le_length_mul l (listMax l) fun x hx => le_listMax l x hx

theorem listMin_le_mean (l : List ℚ) (h : l ≠ []) : listMin l ≤ mean l := by
  have hpos : (0 : ℚ) < l.length := by exact_mod_cast List.length_pos.mpr h
  unfold mean
  rw [le_div_iff₀ hpos, mul_comm]
  exact length_mul_le_sum l (listMin l) fun x hx => listMin_le l x hx

theorem pyMedian_bounds (l : List ℚ) (h : l ≠ []) :
    listMin l ≤ pyMedian l ∧ pyMedian l ≤ listMax l := by
  have hperm := List.perm_insertionSort (fun a b => a ≤ b) l
  have hpos : 0 < (List.insertionSort (fun a b => a ≤ b) l).length := by
    rw [hperm.length_eq]
    exact List.length_pos.mpr h
  have hmem : ∀ i, i < (List.insertionSort (fun a b => a ≤ b) l).length →
      listMin l ≤ (List.insertionSort (fun a b => a ≤ b) l).getD i 0 ∧
        (List.insertionSort (fun a b => a ≤ b) l).getD i 0 ≤ listMax l := by
    intro i hi
    have hx : (List.insertionSort (fun a b => a ≤ b) l).getD i 0 ∈ l := by
      rw [List.getD_eq_getElem?_getD, List.getElem?_eq_getElem hi]
      exact hperm.subset (List.getElem_mem hi)
    exact ⟨listMin_le l _ hx, le_listMax l _ hx⟩
  simp only [pyMedian]
  by_cases hodd : (List.insertionSort (fun a b => a ≤ b) l).length % 2 = 1
  · rw [if_pos hodd]
    exact hmem _ (Nat.div_lt_self hpos (by norm_num))
  · rw [if_neg hodd]
    have h1 : (List.insertionSort (fun a b => a ≤ b) l).length / 2 <
        (List.insertionSort (fun a b => a ≤ b) l).length :=
      Nat.div_lt_self hpos (by norm_num)
    have h2 : (List.insertionSort (fun a b => a ≤ b) l).length / 2 - 1 <
        (List.insertionSort (fun a b => a ≤ b) l).length :=
      lt_of_le_of_lt (Nat.sub_le _ _) h1
    obtain ⟨ha1, ha2⟩ := hmem _ h2
    obtain ⟨hb1, hb2⟩ := hmem _ h1
    constructor
    · linarith
    · linarith

theorem sampleVar_nonneg (l : List ℚ) (h2 : 2 ≤ l.length) : 0 ≤ sampleVar l := by
  unfold sampleVar
  apply div_nonneg
  · apply List.sum_nonneg
    intro x hx
    obtain ⟨y, hy, rfl⟩ := List.mem_map.mp hx
    positivity
  · have hc : (2 : ℚ) ≤ (l.length : ℚ) := by exact_mod_cast h2
    linarith

theorem filter_isSome_length_eq (l : List (Option ℚ)) :
    (l.filter fun o => o.isSome).length = (l.filterMap id).length := by
  induction l with
  | nil => rfl
  | cons a t ih => cases a <;> simp [ih]

/-!
Database benchmark: benchmark_database_performance, lines 120-173, and the
API benchmark, lines 175-219.  Both run each query 10 times; a run outcome
is some duration on success and none when the query raised (the failure is
printed and swallowed).  The durations list and the success counter grow
together, so durations = outcomes.filterMap id and success_count =
(outcomes.filter isSome).length.  An entry is emitted only under
`if durations:` (lines 161, 210).  The rows_returned field (line 169)
depends on a Python local leaking across loop iterations and is not
referenced by any claim; it is omitted here.
-/

/-- The per-query statistics dictionary of lines 162-170. -/
structure QueryStats where
  average_ms : ℚ
  median_ms : ℚ
  min_ms : ℚ
  max_ms : ℚ
  std_dev_ms : ℝ
  success_rate : ℚ

/-- The body of the per-query loop of benchmark_database_performance,
lines 142-170: 10 outcomes reduce to an optional statistics entry.
statistics.stdev is the square root of the n-1 sample variance and is
computed only when more than one duration was collected (line 167). -/
noncomputable def benchQuery (outcomes : List (Option ℚ)) : Option QueryStats :=
  let durations := outcomes.filterMap id
  if durations = [] then none
  else some {
    average_ms := mean durations
    median_ms := pyMedian durations
    min_ms := listMin durations
    max_ms := listMax durations
    std_dev_ms := if durations.length > 1 then Real.sqrt (sampleVar durations) else 0
    success_rate := ((outcomes.filter fun o => o.isSome).length : ℚ) / 10 }

/-- benchmark_database_performance, lines 120-173: every query of the dict
is benchmarked in turn and recorded only when its entry was emitted. -/
noncomputable def benchmark_database_performance
    (qs : List (String × List (Option ℚ))) : List (String × QueryStats) :=
  qs.filterMap fun q => (benchQuery q.2).map fun e => (q.1, e)

/-- The per-endpoint statistics dictionary of lines 211-217 (no stddev). -/
structure ApiStats where
  average_ms : ℚ
  median_ms : ℚ
  min_ms : ℚ
  max_ms : ℚ
  success_rate : ℚ
deriving DecidableEq

/-- The body of the per-endpoint loop of benchmark_api_performance,
lines 191-217. -/
def benchApi (outcomes : List (Option ℚ)) : Option ApiStats :=
  let durations := outcomes.filterMap id
  if durations = [] then none
  else some {
    average_ms := mean durations
    median_ms := pyMedian durations
    min_ms := listMin durations
    max_ms := listMax durations
    success_rate := ((outcomes.filter fun o => o.isSome).length : ℚ) / 10 }

/-- benchmark_api_performance, lines 175-219. -/
def benchmark_api_performance
    (ts : List (String × List (Option ℚ))) : List (String × ApiStats) :=
  ts.filterMap fun t => (benchApi t.2).map fun e => (t.1, e)

theorem benchQuery_eq_some (outcomes : List (Option ℚ)) (e : QueryStats)
    (h : benchQuery outcomes = some e) :
    outcomes.filterMap id ≠ [] ∧
    e.average_ms = mean (outcomes.filterMap id) ∧
    e.median_ms = pyMedian (outcomes.filterMap id) ∧
    e.min_ms = listMin (outcomes.filterMap id) ∧
    e.max_ms = listMax (outcomes.filterMap id) ∧
    e.std_dev_ms = (if (outcomes.filterMap id).length > 1 then
      Real.sqrt (sampleVar (outcomes.filterMap id)) else 0) ∧
    e.success_rate = ((outcomes.filter fun o => o.isSome).length : ℚ) / 10 := by
  simp only [benchQuery] at h
  split at h
  · exact absurd h (by simp)
  · rename_i hne
    injection h with h2
    subst h2
    exact ⟨hne, rfl, rfl, rfl, rfl, rfl, rfl⟩

theorem benchApi_eq_some (outcomes : List (Option ℚ)) (a : ApiStats)
    (h : benchApi outcomes = some a) :
    outcomes.filterMap id ≠ [] ∧
    a.average_ms = mean (outcomes.filterMap id) ∧
    a.median_ms = pyMedian (outcomes.filterMap id) ∧
    a.min_ms = listMin (outcomes.filterMap id) ∧
    a.max_ms = listMax (outcomes.filterMap id) ∧
    a.success_rate = ((outcomes.filter fun o => o.isSome).length : ℚ) / 10 := by
  simp only [benchApi] at h
  split at h
  · exact absurd h (by simp)
  · rename_i hne
    injection h with h2
    subst h2
    exact ⟨hne, rfl, rfl, rfl, rfl, rfl⟩

theorem success_rate_bounds (outcomes : List (Option ℚ)) (hlen : outcomes.length = 10)
    (hne : outcomes.filterMap id ≠ []) :
    1/10 ≤ ((outcomes.filter fun o => o.isSome).length : ℚ) / 10 ∧
    ((outcomes.filter fun o => o.isSome).length : ℚ) / 10 ≤ 1 := by
  have h1 : 1 ≤ (outcomes.filter fun o => o.isSome).length := by
    rw [filter_isSome_length_eq]
    exact List.length_pos.mpr hne
  have h2 : (outcomes.filter fun o => o.isSome).length ≤ 10 :=
    hlen ▸ List.length_filter_le _ _
  have hc1 : (1 : ℚ) ≤ ((outcomes.filter fun o => o.isSome).length : ℚ) := by
    exact_mod_cast h1
  have hc2 : ((outcomes.filter fun o => o.isSome).length : ℚ) ≤ 10 := by
    exact_mod_cast h2
  constructor
  · linarith
  · linarith

/-- C3 counterexample: a query whose 10 repetitions all fail is not
recorded at all - the results dictionary is empty rather than holding an
entry with success_rate 0 and zero statistics. -/
theorem allfail_query_omitted_counterexample :
    benchmark_database_performance
      [("count_query", List.replicate 10 (none : Option ℚ))] = [] := rfl

/-- C3 amended: a query whose repetitions all fail does not abort the run -
all other queries are still benchmarked and recorded exactly as without it -
but the all-failed query is omitted from the per-category results entirely
(no entry at all, instead of an entry with successRate 0 and zero duration
statistics). -/
theorem allfail_query_omitted_run_continues (pre post : List (String × List (Option ℚ)))
    (name : String) (outs : List (Option ℚ)) (h : ∀ o ∈ outs, o = none) :
    benchmark_database_performance (pre ++ (name, outs) :: post) =
      benchmark_database_performance pre ++ benchmark_database_performance post := by
  have hnil : outs.filterMap id = [] := by
    rw [List.filterMap_eq_nil_iff]
    exact h
  have hq : benchQuery outs = none := by
    simp only [benchQuery]
    rw [if_pos hnil]
  unfold benchmark_database_performance
  rw [List.filterMap_append]
  simp [hq]

/-- Witness for the amended C3 at a concrete input: one healthy query
followed by an all-failing query. -/
theorem allfail_query_omitted_run_continues_witness :
    benchmark_database_performance
        ([("select_all_draws", List.replicate 10 (some 5))] ++
          ("count_query", List.replicate 10 (none : Option ℚ)) :: []) =
      benchmark_database_performance [("select_all_draws", List.replicate 10 (some 5))] ++
        benchmark_database_performance [] :=
  allfail_query_omitted_run_continues
    [("select_all_draws", List.replicate 10 (some 5))] [] "count_query"
    (List.replicate 10 (none : Option ℚ)) (by decide)

/-- C9: the reported standard deviation of an emitted entry is the sample
(n-1) standard deviation of the successful durations when there are at
least 2 of them (nonnegative, and its square is the n-1 sample variance)
and 0 otherwise; for exactly one successful duration d, the entry has
stddev 0 and min = max = mean = median = d. -/
theorem benchQuery_std_dev (outcomes : List (Option ℚ)) (e : QueryStats)
    (h : benchQuery outcomes = some e) :
    (2 ≤ (outcomes.filterMap id).length →
      0 ≤ e.std_dev_ms ∧ e.std_dev_ms ^ 2 = ((sampleVar (outcomes.filterMap id) : ℚ) : ℝ)) ∧
    ((outcomes.filterMap id).length < 2 → e.std_dev_ms = 0) ∧
    (∀ d : ℚ, outcomes.filterMap id = [d] →
      e.std_dev_ms = 0 ∧ e.min_ms = d ∧ e.max_ms = d ∧
        e.average_ms = d ∧ e.median_ms = d) := by
  obtain ⟨hne, havg, hmed, hmin, hmax, hstd, hsr⟩ := benchQuery_eq_some outcomes e h
  refine ⟨?_, ?_, ?_⟩
  · intro hge
    have hgt : (outcomes.filterMap id).length > 1 := hge
    rw [hstd, if_pos hgt]
    refine ⟨Real.sqrt_nonneg _, Real.sq_sqrt ?_⟩
    exact_mod_cast sampleVar_nonneg _ hge
  · intro hlt
    rw [hstd, if_neg (by omega)]
  · intro d hd
    refine ⟨?_, ?_, ?_, ?_, ?_⟩
    · rw [hstd, hd]
      norm_num
    · rw [hmin, hd]
      rfl
    · rw [hmax, hd]
      rfl
    · rw [havg, hd]
      simp [mean]
    · rw [hmed, hd]
      simp [pyMedian, List.insertionSort, List.orderedInsert, List.getD]

/-- Concrete entry for the C9 witness: one successful run of 5 ms among
ten repetitions. -/
def c9input : List (Option ℚ) :=
  [some 5, none, none, none, none, none, none, none, none, none]

/-- The emitted entry of the C9 witness input. -/
noncomputable def c9entry : QueryStats := (benchQuery c9input).getD ⟨0, 0, 0, 0, 0, 0⟩

/-- Witness for C9: the single-success entry has stddev 0 and all duration
statistics equal to the one duration. -/
theorem benchQuery_std_dev_witness :
    c9entry.std_dev_ms = 0 ∧ c9entry.min_ms = 5 ∧ c9entry.max_ms = 5 ∧
      c9entry.average_ms = 5 ∧ c9entry.median_ms = 5 :=
  (benchQuery_std_dev c9input c9entry rfl).2.2 5 rfl

/-- C10: every emitted per-query entry, of the database benchmark and of
the API benchmark, with its 10 repetitions, satisfies the ordering
invariants min at most median at most max and min at most mean at most
max, has a nonnegative standard deviation, and a success rate in the
closed interval from 1/10 to 1 (an entry exists only when at least one
run succeeded). -/
theorem emitted_entry_invariants (outcomes : List (Option ℚ)) (hlen : outcomes.length = 10) :
    (∀ e, benchQuery outcomes = some e →
      e.min_ms ≤ e.median_ms ∧ e.median_ms ≤ e.max_ms ∧
      e.min_ms ≤ e.average_ms ∧ e.average_ms ≤ e.max_ms ∧
      0 ≤ e.std_dev_ms ∧ 1/10 ≤ e.success_rate ∧ e.success_rate ≤ 1) ∧
    (∀ a, benchApi outcomes = some a →
      a.min_ms ≤ a.median_ms ∧ a.median_ms ≤ a.max_ms ∧
      a.min_ms ≤ a.average_ms ∧ a.average_ms ≤ a.max_ms ∧
      1/10 ≤ a.success_rate ∧ a.success_rate ≤ 1) := by
  constructor
  · intro e he
    obtain ⟨hne, havg, hmed, hmin, hmax, hstd, hsr⟩ := benchQuery_eq_some outcomes e he
    obtain ⟨hm1, hm2⟩ := pyMedian_bounds _ hne
    obtain ⟨hs1, hs2⟩ := success_rate_bounds outcomes hlen hne
    refine ⟨?_, ?_, ?_, ?_, ?_, ?_, ?_⟩
    · rw [hmin, hmed]
      exact hm1
    · rw [hmed, hmax]
      exact hm2
    · rw [hmin, havg]
      exact listMin_le_mean _ hne
    · rw [havg, hmax]
      exact mean_le_listMax _ hne
    · rw [hstd]
      split
      · exact Real.sqrt_nonneg _
      · exact le_refl 0
    · rw [hsr]
      exact hs1
    · rw [hsr]
      exact hs2
  · intro a ha
    obtain ⟨hne, havg, hmed, hmin, hmax, hsr⟩ := benchApi_eq_some outcomes a ha
    obtain ⟨hm1, hm2⟩ := pyMedian_bounds _ hne
    obtain ⟨hs1, hs2⟩ := success_rate_bounds outcomes hlen hne
    refine ⟨?_, ?_, ?_, ?_, ?_, ?_⟩
    · rw [hmin, hmed]
      exact hm1
    · rw [hmed, hmax]
      exact hm2
    · rw [hmin, havg]
      exact listMin_le_mean _ hne
    · rw [havg, hmax]
      exact mean_le_listMax _ hne
    · rw [hsr]
      exact hs1
    · rw [hsr]
      exact hs2

/-- Concrete outcomes for the C10 witness: two successes among ten runs. -/
def c10input : List (Option ℚ) :=
  [some 3, some 7, none, none, none, none, none, none, none, none]

/-- The emitted database entry of the C10 witness input. -/
noncomputable def c10entry : QueryStats := (benchQuery c10input).getD ⟨0, 0, 0, 0, 0, 0⟩

/-- The emitted API entry of the C10 witness input. -/
def c10apientry : ApiStats := (benchApi c10input).getD ⟨0, 0, 0, 0, 0⟩

/-- Witness for C10 at the concrete two-success input. -/
theorem emitted_entry_invariants_witness :
    (c10entry.min_ms ≤ c10entry.median_ms ∧ c10entry.median_ms ≤ c10entry.max_ms ∧
      c10entry.min_ms ≤ c10entry.average_ms ∧ c10entry.average_ms ≤ c10entry.max_ms ∧
      0 ≤ c10entry.std_dev_ms ∧ 1/10 ≤ c10entry.success_rate ∧ c10entry.success_rate ≤ 1) ∧
    (c10apientry.min_ms ≤ c10apientry.median_ms ∧
      c10apientry.median_ms ≤ c10apientry.max_ms ∧
      c10apientry.min_ms ≤ c10apientry.average_ms ∧
      c10apientry.average_ms ≤ c10apientry.max_ms ∧
      1/10 ≤ c10apientry.success_rate ∧ c10apientry.success_rate ≤ 1) :=
  ⟨(emitted_entry_invariants c10input (by decide)).1 c10entry rfl,
   (emitted_entry_invariants c10input (by decide)).2 c10apientry rfl⟩

/-!
Orchestrator: run_comprehensive_benchmark, lines 65-100, and its helpers
generate_summary (lines 358-391), generate_recommendations (lines
393-426), collect_system_metrics (lines 332-356) and
benchmark_cache_performance (lines 221-253).  The class state of
PerformanceBenchmark consists of self.results (a list of
BenchmarkResult) and self.metrics_history; __init__ sets both to the
empty list.  None of the category methods assigns to either field, and
nothing in the script ever appends to self.results (the BenchmarkResult
dataclass is never even constructed); the only state mutation is the
append to self.metrics_history inside collect_system_metrics.
-/

/-- The BenchmarkResult dataclass of lines 32-38. -/
structure BenchmarkResult where
  test_name : String
  duration_ms : ℚ
  success : Bool
  error_message : Option String
deriving DecidableEq

/-- The PerformanceMetrics dataclass of lines 41-50 (timestamp as an
abstract tick number). -/
structure PerformanceMetrics where
  cpu_percent : ℚ
  memory_mb : ℚ
  memory_percent : ℚ
  disk_io_read_mb : ℚ
  disk_io_write_mb : ℚ
  network_io_sent_mb : ℚ
  network_io_recv_mb : ℚ
  timestamp : ℕ
deriving DecidableEq

/-- The mutable state of a PerformanceBenchmark instance. -/
structure BenchState where
  results : List BenchmarkResult
  metrics_history : List PerformanceMetrics
deriving DecidableEq

/-- The state after __init__, lines 53-63: both lists empty. -/
def initBenchState : BenchState := ⟨[], []⟩

/-- collect_system_metrics, lines 332-356: one psutil reading per one
second tick until the duration elapses; a failed reading (none) only
skips its tick.  The collected snapshots are appended to
self.metrics_history. -/
def collect_system_metrics (ticks : List (Option PerformanceMetrics)) (st : BenchState) :
    BenchState :=
  { st with metrics_history := st.metrics_history ++ ticks.filterMap id }

/-- The per-query cache dictionary of lines 246-250. -/
structure CacheStats where
  first_run_ms : ℚ
  second_run_ms : ℚ
  cache_effectiveness : ℚ
deriving DecidableEq

/-- benchmark_cache_performance, lines 221-253: two timed back-to-back
runs per query and their percent delta (guarded when the first run took
zero time). -/
def benchmark_cache_performance (runs : List (String × ℚ × ℚ)) : List (String × CacheStats) :=
  runs.map fun r => (r.1, ⟨r.2.1, r.2.2,
    if r.2.1 > 0 then (r.2.1 - r.2.2) / r.2.1 * 100 else 0⟩)

/-- The system metrics block of the summary, lines 383-389. -/
structure SystemSummary where
  average_cpu_percent : ℚ
  max_cpu_percent : ℚ
  average_memory_percent : ℚ
  max_memory_percent : ℚ
  peak_memory_mb : ℚ
deriving DecidableEq

/-- The summary dictionary of lines 367-389. -/
structure Summary where
  total_tests : ℕ
  successful_tests : ℕ
  failed_tests : ℕ
  success_rate : ℚ
  average_response_time_ms : ℚ
  median_response_time_ms : ℚ
  max_response_time_ms : ℚ
  min_response_time_ms : ℚ
  sys : Option SystemSummary
deriving DecidableEq

/-- generate_summary, lines 358-391: returns the empty dictionary (none)
when self.results is empty, otherwise the base statistics over the
successful result durations plus, when the metrics history is non-empty,
the system metrics block. -/
def generate_summary (results : List BenchmarkResult) (hist : List PerformanceMetrics) :
    Option Summary :=
  if results = [] then none
  else
    let all_durations := (results.filter fun r => r.success).map fun r => r.duration_ms
    some {
      total_tests := results.length
      successful_tests := (results.filter fun r => r.success).length
      failed_tests := (results.filter fun r => !r.success).length
      success_rate := ((results.filter fun r => r.success).length : ℚ) / results.length
      average_response_time_ms := if all_durations = [] then 0 else mean all_durations
      median_response_time_ms := if all_durations = [] then 0 else pyMedian all_durations
      max_response_time_ms := if all_durations = [] then 0 else listMax all_durations
      min_response_time_ms := if all_durations = [] then 0 else listMin all_durations
      sys := if hist = [] then none
        else some {
          average_cpu_percent := mean (hist.map fun m => m.cpu_percent)
          max_cpu_percent := listMax (hist.map fun m => m.cpu_percent)
          average_memory_percent := mean (hist.map fun m => m.memory_percent)
          max_memory_percent := listMax (hist.map fun m => m.memory_percent)
          peak_memory_mb := listMax (hist.map fun m => m.memory_mb) } }

/-- generate_recommendations, lines 393-426.  When self.results is
non-empty, line 399 takes statistics.mean over the successful durations
with no emptiness guard, which raises StatisticsError when no result
succeeded (modelled as none). -/
def generate_recommendations (results : List BenchmarkResult)
    (hist : List PerformanceMetrics) : Option (List String) :=
  let succ := (results.filter fun r => r.success).map fun r => r.duration_ms
  if results ≠ [] ∧ succ = [] then none
  else some (
    (if results ≠ [] ∧ mean succ > 500 then
      ["High average response time detected - consider optimizing database queries and API endpoints"]
     else []) ++
    (if results ≠ [] ∧ mean succ > 1000 then
      ["Very high response times - implement aggressive caching strategies"]
     else []) ++
    (if hist ≠ [] ∧ mean (hist.map fun m => m.memory_percent) > 70 then
      ["High memory usage - implement memory optimization and leak detection"]
     else []) ++
    (if hist ≠ [] ∧ listMax (hist.map fun m => m.memory_percent) > 90 then
      ["Critical memory usage - immediate optimization required"]
     else []) ++
    ["Implement comprehensive monitoring and alerting",
     "Regular performance testing and regression detection",
     "Database query optimization and indexing review",
     "API response compression and caching strategies",
     "Frontend code splitting and lazy loading"])

/-- The environment inputs of one orchestrated run: the measured outcomes
of every category and the resource reading of every sampler tick. -/
structure RunInputs where
  dbQueries : List (String × List (Option ℚ))
  apiTests : List (String × List (Option ℚ))
  cacheRuns : List (String × ℚ × ℚ)
  loadLevels : List LoadLevelInput
  metricTicks : List (Option PerformanceMetrics)

/-- The report dictionary of lines 82-91 (timestamp omitted). -/
structure Report where
  database_performance : List (String × QueryStats)
  api_performance : List (String × ApiStats)
  cache_performance : List (String × CacheStats)
  load_performance : List (String × LoadLevelResult)
  system_metrics : List PerformanceMetrics
  summary : Option Summary
  recommendations : List String

/-- run_comprehensive_benchmark, lines 65-100: the awaited coroutines run
to completion one after another (warm up, the four categories, then the
metrics collection - no background task is ever created), and the report
is assembled afterwards.  generate_summary and generate_recommendations
read self.results, which is still the empty list of __init__ because no
method ever appends to it.  A raise inside the load benchmark or inside
generate_recommendations aborts the run (none). -/
noncomputable def run_comprehensive_benchmark (inp : RunInputs) (st0 : BenchState) :
    Option Report :=
  match benchmark_load_performance inp.loadLevels with
  | none => none
  | some load =>
    match generate_recommendations (collect_system_metrics inp.metricTicks st0).results
        (collect_system_metrics inp.metricTicks st0).metrics_history with
    | none => none
    | some recs =>
      some {
        database_performance := benchmark_database_performance inp.dbQueries
        api_performance := benchmark_api_performance inp.apiTests
        cache_performance := benchmark_cache_performance inp.cacheRuns
        load_performance := load
        system_metrics := (collect_system_metrics inp.metricTicks st0).metrics_history
        summary := generate_summary (collect_system_metrics inp.metricTicks st0).results
          (collect_system_metrics inp.metricTicks st0).metrics_history
        recommendations := recs }

/-- The await order of run_comprehensive_benchmark, lines 69-97: each
phase is awaited and runs to completion before the next one starts. -/
inductive Phase where
  | warmup
  | dbBench
  | apiBench
  | cacheBench
  | loadBench
  | metricsCollection
  | reportAssembly
  | saveReport
  | charts
deriving DecidableEq, BEq

/-- The sequential phase order of lines 69-97 of the source. -/
def run_comprehensive_order : List Phase :=
  [Phase.warmup, Phase.dbBench, Phase.apiBench, Phase.cacheBench, Phase.loadBench,
   Phase.metricsCollection, Phase.reportAssembly, Phase.saveReport, Phase.charts]

/-- C4: the summary of every completed orchestrated run is the empty
dictionary (none), because generate_summary reads self.results and no
benchmark category ever appends to it. -/
theorem run_summary_always_empty (inp : RunInputs) (r : Report)
    (h : run_comprehensive_benchmark inp initBenchState = some r) :
    r.summary = none := by
  unfold run_comprehensive_benchmark at h
  split at h
  · cases h
  · split at h
    · cases h
    · injection h with h2
      subst h2
      simp [generate_summary, collect_system_metrics, initBenchState]

/-- Witness for C4 at the failing input of the claim: the database
category measured a successful operation (ten successes of 5 ms, one
recorded entry), yet the summary of the assembled report is the empty
dictionary. -/
def c4input : RunInputs :=
  { dbQueries := [("count_query", List.replicate 10 (some 5))]
    apiTests := []
    cacheRuns := []
    loadLevels := []
    metricTicks := [] }

theorem run_summary_always_empty_witness :
    Option.map Report.summary (run_comprehensive_benchmark c4input initBenchState) =
      some none ∧
    Option.map (fun r => r.database_performance.length)
      (run_comprehensive_benchmark c4input initBenchState) = some 1 := by
  have hs : (run_comprehensive_benchmark c4input initBenchState).isSome = true := rfl
  obtain ⟨r, hr⟩ := Option.isSome_iff_exists.mp hs
  refine ⟨?_, rfl⟩
  rw [hr]
  show some r.summary = some none
  rw [run_summary_always_empty c4input r hr]

/-- C8 counterexample: in the sequential await order of
run_comprehensive_benchmark, the system metrics collection does not begin
before the load category - the last of the four benchmark categories -
has finished, refuting concurrent background sampling while the
categories run. -/
theorem metrics_not_concurrent_counterexample :
    ¬ run_comprehensive_order.indexOf Phase.metricsCollection <
        run_comprehensive_order.indexOf Phase.loadBench := by decide

/-- C8 amended: the resource sampler is not a concurrent background task.
collect_system_metrics runs as a separate sequential phase after all four
benchmark categories have completed (its await order index exceeds each
category index), and every snapshot of the final report comes from that
phase alone: starting from the initial state the report carries exactly
the snapshots delivered by the collection ticks. -/
theorem metrics_collected_after_categories (inp : RunInputs) (r : Report)
    (h : run_comprehensive_benchmark inp initBenchState = some r) :
    r.system_metrics = inp.metricTicks.filterMap id ∧
    run_comprehensive_order.indexOf Phase.dbBench <
      run_comprehensive_order.indexOf Phase.metricsCollection ∧
    run_comprehensive_order.indexOf Phase.apiBench <
      run_comprehensive_order.indexOf Phase.metricsCollection ∧
    run_comprehensive_order.indexOf Phase.cacheBench <
      run_comprehensive_order.indexOf Phase.metricsCollection ∧
    run_comprehensive_order.indexOf Phase.loadBench <
      run_comprehensive_order.indexOf Phase.metricsCollection := by
  refine ⟨?_, by decide, by decide, by decide, by decide⟩
  unfold run_comprehensive_benchmark at h
  split at h
  · cases h
  · split at h
    · cases h
    · injection h with h2
      subst h2
      simp [collect_system_metrics, initBenchState]

/-- Input for the C8 witness: two sampler ticks, one failed. -/
def c8input : RunInputs :=
  { dbQueries := []
    apiTests := []
    cacheRuns := []
    loadLevels := []
    metricTicks := [some ⟨1, 2, 3, 4, 5, 0, 0, 0⟩, none] }

/-- Witness for the amended C8 at a concrete input. -/
theorem metrics_collected_after_categories_witness :
    Option.map Report.system_metrics (run_comprehensive_benchmark c8input initBenchState) =
      some [⟨1, 2, 3, 4, 5, 0, 0, 0⟩] := by
  have hs : (run_comprehensive_benchmark c8input initBenchState).isSome = true := rfl
  obtain ⟨r, hr⟩ := Option.isSome_iff_exists.mp hs
  have h := metrics_collected_after_categories c8input r hr
  rw [hr]
  show some r.system_metrics = some [⟨1, 2, 3, 4, 5, 0, 0, 0⟩]
  rw [h.1]
  rfl

end PerfBench
